import Mathlib

/-!
# bifrostcli: the `install` command

A shallow embedding of `cmd/install.go`.  The command builds two apply
configurations (a daemon set and a service) with the client-go builder API
and submits them to the cluster, one after the other.

Conventions of the embedding:

* a Go pointer field (`*string`, `*int32`, a pointer to a nested
  configuration) is an `Option`; `nil` is `none`;
* a Go slice is a `List`; `nil` and the empty slice are both `[]`;
* a Go `map[string]string` is an association list with one entry per key
  (`GoMap`); `nil` and the empty map are both `[]`;
* `int32` values are `Int` (install only stores the constant 8080);
* a `With...` builder has a pointer receiver, assigns the field of the
  receiver and returns the receiver; here it is the function from the
  receiver before the call to the receiver after the call, and the local
  variable it was called on is rebound to the result;
* of the client-go structs only the fields install can reach are listed; the
  fields left out are never assigned by install and stay at their zero value;
* a Go `error` is the `String` that `err.Error()` returns.
-/

namespace Bifrost

/-! ## Go maps -/

/-- A Go `map[string]string`. -/
abbrev GoMap := List (String × String)

/-- Map lookup `m[k]` (with the `ok` result as the `Option`). -/
def mapGet : GoMap → String → Option String
  | [], _ => none
  | (k', v) :: rest, k => if k' = k then some v else mapGet rest k

/-- Map assignment `m[k] = v`. -/
def mapSet : GoMap → String → String → GoMap
  | [], k, v => [(k, v)]
  | (k', v') :: rest, k, v =>
    if k' = k then (k, v) :: rest else (k', v') :: mapSet rest k v

/-- The loop `for k, v := range entries { m[k] = v }`. -/
def mapMerge (m entries : GoMap) : GoMap :=
  entries.foldl (fun acc kv => mapSet acc kv.1 kv.2) m

/-- A map literal `map[string]string{k1: v1, ...}`. -/
def mapLit (entries : List (String × String)) : GoMap :=
  mapMerge [] entries

/-! ## k8s.io/apimachinery and k8s.io/api values -/

/-- The type tag of `intstr.IntOrString`: `Int` is 0, `String` is 1. -/
inductive IntStrType
  | Int
  | String
  deriving DecidableEq, Repr

/-- The struct `intstr.IntOrString`; `Type_` is its field `Type`. -/
structure IntOrString where
  Type_ : IntStrType := IntStrType.Int
  IntVal : Int := 0
  StrVal : String := ""
  deriving DecidableEq, Repr

/-- The string type `corev1.PullPolicy` with its three constants. -/
inductive PullPolicy
  | PullAlways
  | PullNever
  | PullIfNotPresent
  deriving DecidableEq, Repr

/-- The struct `metav1.ApplyOptions` (without its embedded `TypeMeta`). -/
structure ApplyOptions where
  DryRun : List String := []
  Force : Bool := false
  FieldManager : String := ""
  deriving DecidableEq, Repr

/-! ## client-go apply configurations -/

/-- The struct `metav1.TypeMetaApplyConfiguration`. -/
structure TypeMetaApplyConfiguration where
  Kind : Option String := none
  APIVersion : Option String := none
  deriving DecidableEq, Repr

/-- The struct `metav1.ObjectMetaApplyConfiguration` (the identifiers and
timestamps the server fills in, owner references and finalizers left out). -/
structure ObjectMetaApplyConfiguration where
  Name : Option String := none
  GenerateName : Option String := none
  Namespace : Option String := none
  Labels : GoMap := []
  Annotations : GoMap := []
  deriving DecidableEq, Repr

/-- The struct `metav1.LabelSelectorApplyConfiguration`
(`MatchExpressions` left out). -/
structure LabelSelectorApplyConfiguration where
  MatchLabels : GoMap := []
  deriving DecidableEq, Repr

/-- The struct `corev1.ObjectFieldSelectorApplyConfiguration`. -/
structure ObjectFieldSelectorApplyConfiguration where
  APIVersion : Option String := none
  FieldPath : Option String := none
  deriving DecidableEq, Repr

/-- The struct `corev1.EnvVarSourceApplyConfiguration`
(`ResourceFieldRef`, `ConfigMapKeyRef`, `SecretKeyRef` left out). -/
structure EnvVarSourceApplyConfiguration where
  FieldRef : Option ObjectFieldSelectorApplyConfiguration := none
  deriving DecidableEq, Repr

/-- The struct `corev1.EnvVarApplyConfiguration`. -/
structure EnvVarApplyConfiguration where
  Name : Option String := none
  Value : Option String := none
  ValueFrom : Option EnvVarSourceApplyConfiguration := none
  deriving DecidableEq, Repr

/-- The struct `corev1.SecretEnvSourceApplyConfiguration`; `Name` is the field
of the embedded `LocalObjectReferenceApplyConfiguration`. -/
structure SecretEnvSourceApplyConfiguration where
  Name : Option String := none
  Optional : Option Bool := none
  deriving DecidableEq, Repr

/-- The struct `corev1.ConfigMapEnvSourceApplyConfiguration`. -/
structure ConfigMapEnvSourceApplyConfiguration where
  Name : Option String := none
  Optional : Option Bool := none
  deriving DecidableEq, Repr

/-- The struct `corev1.EnvFromSourceApplyConfiguration`. -/
structure EnvFromSourceApplyConfiguration where
  Prefix : Option String := none
  ConfigMapRef : Option ConfigMapEnvSourceApplyConfiguration := none
  SecretRef : Option SecretEnvSourceApplyConfiguration := none
  deriving DecidableEq, Repr

/-- The struct `corev1.ContainerPortApplyConfiguration`; the string type
`corev1.Protocol` is `String`. -/
structure ContainerPortApplyConfiguration where
  Name : Option String := none
  HostPort : Option Int := none
  ContainerPort : Option Int := none
  Protocol : Option String := none
  HostIP : Option String := none
  deriving DecidableEq, Repr

/-- The struct `corev1.ContainerApplyConfiguration`, with the fields of the
composite literal in install and the neighbouring scalar ones. -/
structure ContainerApplyConfiguration where
  Name : Option String := none
  Image : Option String := none
  Command : List String := []
  Args : List String := []
  WorkingDir : Option String := none
  Ports : List ContainerPortApplyConfiguration := []
  EnvFrom : List EnvFromSourceApplyConfiguration := []
  Env : List EnvVarApplyConfiguration := []
  ImagePullPolicy : Option PullPolicy := none
  deriving DecidableEq, Repr

/-- The struct `corev1.PodSpecApplyConfiguration`, with its two container
slices (volumes, scheduling and security fields left out). -/
structure PodSpecApplyConfiguration where
  InitContainers : List ContainerApplyConfiguration := []
  Containers : List ContainerApplyConfiguration := []
  deriving DecidableEq, Repr

/-- The struct `corev1.PodTemplateSpecApplyConfiguration`; the object meta is
an embedded pointer. -/
structure PodTemplateSpecApplyConfiguration where
  ObjectMeta : Option ObjectMetaApplyConfiguration := none
  Spec : Option PodSpecApplyConfiguration := none
  deriving DecidableEq, Repr

/-- The struct `appsv1.DaemonSetSpecApplyConfiguration` (`UpdateStrategy`
left out). -/
structure DaemonSetSpecApplyConfiguration where
  Selector : Option LabelSelectorApplyConfiguration := none
  Template : Option PodTemplateSpecApplyConfiguration := none
  MinReadySeconds : Option Int := none
  RevisionHistoryLimit : Option Int := none
  deriving DecidableEq, Repr

/-- The struct `appsv1.DaemonSetApplyConfiguration` (`Status` left out). -/
structure DaemonSetApplyConfiguration where
  TypeMeta : TypeMetaApplyConfiguration := {}
  ObjectMeta : Option ObjectMetaApplyConfiguration := none
  Spec : Option DaemonSetSpecApplyConfiguration := none
  deriving DecidableEq, Repr

/-- The struct `corev1.ServicePortApplyConfiguration`. -/
structure ServicePortApplyConfiguration where
  Name : Option String := none
  Protocol : Option String := none
  AppProtocol : Option String := none
  Port : Option Int := none
  TargetPort : Option IntOrString := none
  NodePort : Option Int := none
  deriving DecidableEq, Repr

/-- The struct `corev1.ServiceSpecApplyConfiguration`, with the two fields of
the composite literal in install and two scalar ones; `Type_` is its field
`Type`. -/
structure ServiceSpecApplyConfiguration where
  Ports : List ServicePortApplyConfiguration := []
  Selector : GoMap := []
  ClusterIP : Option String := none
  Type_ : Option String := none
  deriving DecidableEq, Repr

/-- The struct `corev1.ServiceApplyConfiguration` (`Status` left out). -/
structure ServiceApplyConfiguration where
  TypeMeta : TypeMetaApplyConfiguration := {}
  ObjectMeta : Option ObjectMetaApplyConfiguration := none
  Spec : Option ServiceSpecApplyConfiguration := none
  deriving DecidableEq, Repr

/-! ## The builder methods install calls

Each is the client-go method of the same name: it assigns one field of its
receiver and returns the receiver. -/

/-- `func (b *EnvVarApplyConfiguration) WithName(value string)`. -/
def EnvVarApplyConfiguration.WithName (b : EnvVarApplyConfiguration) (value : String) :
    EnvVarApplyConfiguration :=
  { b with Name := some value }

/-- `func (b *EnvVarApplyConfiguration) WithValue(value string)`. -/
def EnvVarApplyConfiguration.WithValue (b : EnvVarApplyConfiguration) (value : String) :
    EnvVarApplyConfiguration :=
  { b with Value := some value }

/-- `func (b *EnvVarApplyConfiguration) WithValueFrom(value *EnvVarSourceApplyConfiguration)`. -/
def EnvVarApplyConfiguration.WithValueFrom (b : EnvVarApplyConfiguration)
    (value : Option EnvVarSourceApplyConfiguration) : EnvVarApplyConfiguration :=
  { b with ValueFrom := value }

/-- `func (b *ObjectFieldSelectorApplyConfiguration) WithFieldPath(value string)`. -/
def ObjectFieldSelectorApplyConfiguration.WithFieldPath
    (b : ObjectFieldSelectorApplyConfiguration) (value : String) :
    ObjectFieldSelectorApplyConfiguration :=
  { b with FieldPath := some value }

/-- `func (b *ContainerPortApplyConfiguration) WithContainerPort(value int32)`. -/
def ContainerPortApplyConfiguration.WithContainerPort (b : ContainerPortApplyConfiguration)
    (value : Int) : ContainerPortApplyConfiguration :=
  { b with ContainerPort := some value }

/-- `func (b *SecretEnvSourceApplyConfiguration) WithName(value string)`. -/
def SecretEnvSourceApplyConfiguration.WithName (b : SecretEnvSourceApplyConfiguration)
    (value : String) : SecretEnvSourceApplyConfiguration :=
  { b with Name := some value }

/-- `func (b *PodSpecApplyConfiguration) WithContainers(values ...*ContainerApplyConfiguration)`:
appends the pointed-to values to `Containers`.  (The method panics on a nil
argument; install passes the address of a composite literal.) -/
def PodSpecApplyConfiguration.WithContainers (b : PodSpecApplyConfiguration)
    (values : List ContainerApplyConfiguration) : PodSpecApplyConfiguration :=
  { b with Containers := b.Containers ++ values }

/-- The helper `ensureObjectMetaApplyConfigurationExists` of every apply
configuration with an embedded `*ObjectMetaApplyConfiguration`. -/
def ensureObjectMetaApplyConfigurationExists (m : Option ObjectMetaApplyConfiguration) :
    ObjectMetaApplyConfiguration :=
  match m with
  | some meta => meta
  | none => {}

/-- The body shared by the `WithLabels` methods: make sure the object meta
exists, then put every entry into its `Labels`. -/
def withLabels (m : Option ObjectMetaApplyConfiguration) (entries : GoMap) :
    Option ObjectMetaApplyConfiguration :=
  let meta := ensureObjectMetaApplyConfigurationExists m
  some { meta with Labels := mapMerge meta.Labels entries }

/-- The body shared by the `WithName` methods on object meta. -/
def withName (m : Option ObjectMetaApplyConfiguration) (value : String) :
    Option ObjectMetaApplyConfiguration :=
  let meta := ensureObjectMetaApplyConfigurationExists m
  some { meta with Name := some value }

/-- The body shared by the `WithNamespace` methods on object meta. -/
def withNamespace (m : Option ObjectMetaApplyConfiguration) (value : String) :
    Option ObjectMetaApplyConfiguration :=
  let meta := ensureObjectMetaApplyConfigurationExists m
  some { meta with Namespace := some value }

/-- `func (b *PodTemplateSpecApplyConfiguration) WithNamespace(value string)`. -/
def PodTemplateSpecApplyConfiguration.WithNamespace (b : PodTemplateSpecApplyConfiguration)
    (value : String) : PodTemplateSpecApplyConfiguration :=
  { b with ObjectMeta := withNamespace b.ObjectMeta value }

/-- `func (b *PodTemplateSpecApplyConfiguration) WithLabels(entries map[string]string)`. -/
def PodTemplateSpecApplyConfiguration.WithLabels (b : PodTemplateSpecApplyConfiguration)
    (entries : GoMap) : PodTemplateSpecApplyConfiguration :=
  { b with ObjectMeta := withLabels b.ObjectMeta entries }

/-- `func (b *PodTemplateSpecApplyConfiguration) WithSpec(value *PodSpecApplyConfiguration)`. -/
def PodTemplateSpecApplyConfiguration.WithSpec (b : PodTemplateSpecApplyConfiguration)
    (value : Option PodSpecApplyConfiguration) : PodTemplateSpecApplyConfiguration :=
  { b with Spec := value }

/-- `func (b *DaemonSetApplyConfiguration) WithKind(value string)`. -/
def DaemonSetApplyConfiguration.WithKind (b : DaemonSetApplyConfiguration) (value : String) :
    DaemonSetApplyConfiguration :=
  { b with TypeMeta := { b.TypeMeta with Kind := some value } }

/-- `func (b *DaemonSetApplyConfiguration) WithAPIVersion(value string)`. -/
def DaemonSetApplyConfiguration.WithAPIVersion (b : DaemonSetApplyConfiguration)
    (value : String) : DaemonSetApplyConfiguration :=
  { b with TypeMeta := { b.TypeMeta with APIVersion := some value } }

/-- `func (b *DaemonSetApplyConfiguration) WithName(value string)`. -/
def DaemonSetApplyConfiguration.WithName (b : DaemonSetApplyConfiguration) (value : String) :
    DaemonSetApplyConfiguration :=
  { b with ObjectMeta := withName b.ObjectMeta value }

/-- `func (b *DaemonSetApplyConfiguration) WithNamespace(value string)`. -/
def DaemonSetApplyConfiguration.WithNamespace (b : DaemonSetApplyConfiguration)
    (value : String) : DaemonSetApplyConfiguration :=
  { b with ObjectMeta := withNamespace b.ObjectMeta value }

/-- `func (b *DaemonSetApplyConfiguration) WithLabels(entries map[string]string)`. -/
def DaemonSetApplyConfiguration.WithLabels (b : DaemonSetApplyConfiguration)
    (entries : GoMap) : DaemonSetApplyConfiguration :=
  { b with ObjectMeta := withLabels b.ObjectMeta entries }

/-- `func (b *DaemonSetApplyConfiguration) WithSpec(value *DaemonSetSpecApplyConfiguration)`. -/
def DaemonSetApplyConfiguration.WithSpec (b : DaemonSetApplyConfiguration)
    (value : Option DaemonSetSpecApplyConfiguration) : DaemonSetApplyConfiguration :=
  { b with Spec := value }

/-- The constructor `appsv1.DaemonSet(name, namespace string)`: a fresh
configuration with name, namespace, kind and API version set. -/
def DaemonSet (name namespace_ : String) : DaemonSetApplyConfiguration :=
  let b : DaemonSetApplyConfiguration := {}
  let b := b.WithName name
  let b := b.WithNamespace namespace_
  let b := b.WithKind "DaemonSet"
  let b := b.WithAPIVersion "apps/v1"
  b

/-- `func (b *ServiceApplyConfiguration) WithKind(value string)`. -/
def ServiceApplyConfiguration.WithKind (b : ServiceApplyConfiguration) (value : String) :
    ServiceApplyConfiguration :=
  { b with TypeMeta := { b.TypeMeta with Kind := some value } }

/-- `func (b *ServiceApplyConfiguration) WithAPIVersion(value string)`. -/
def ServiceApplyConfiguration.WithAPIVersion (b : ServiceApplyConfiguration)
    (value : String) : ServiceApplyConfiguration :=
  { b with TypeMeta := { b.TypeMeta with APIVersion := some value } }

/-- `func (b *ServiceApplyConfiguration) WithName(value string)`. -/
def ServiceApplyConfiguration.WithName (b : ServiceApplyConfiguration) (value : String) :
    ServiceApplyConfiguration :=
  { b with ObjectMeta := withName b.ObjectMeta value }

/-- `func (b *ServiceApplyConfiguration) WithNamespace(value string)`. -/
def ServiceApplyConfiguration.WithNamespace (b : ServiceApplyConfiguration)
    (value : String) : ServiceApplyConfiguration :=
  { b with ObjectMeta := withNamespace b.ObjectMeta value }

/-- `func (b *ServiceApplyConfiguration) WithLabels(entries map[string]string)`. -/
def ServiceApplyConfiguration.WithLabels (b : ServiceApplyConfiguration)
    (entries : GoMap) : ServiceApplyConfiguration :=
  { b with ObjectMeta := withLabels b.ObjectMeta entries }

/-- `func (b *ServiceApplyConfiguration) WithSpec(value *ServiceSpecApplyConfiguration)`. -/
def ServiceApplyConfiguration.WithSpec (b : ServiceApplyConfiguration)
    (value : Option ServiceSpecApplyConfiguration) : ServiceApplyConfiguration :=
  { b with Spec := value }

/-- The constructor `corev1.Service(name, namespace string)`. -/
def Service (name namespace_ : String) : ServiceApplyConfiguration :=
  let b : ServiceApplyConfiguration := {}
  let b := b.WithName name
  let b := b.WithNamespace namespace_
  let b := b.WithKind "Service"
  let b := b.WithAPIVersion "v1"
  b

/-- `func (b *ServicePortApplyConfiguration) WithName(value string)`. -/
def ServicePortApplyConfiguration.WithName (b : ServicePortApplyConfiguration)
    (value : String) : ServicePortApplyConfiguration :=
  { b with Name := some value }

/-- `func (b *ServicePortApplyConfiguration) WithPort(value int32)`. -/
def ServicePortApplyConfiguration.WithPort (b : ServicePortApplyConfiguration)
    (value : Int) : ServicePortApplyConfiguration :=
  { b with Port := some value }

/-- `func (b *ServicePortApplyConfiguration) WithTargetPort(value intstr.IntOrString)`. -/
def ServicePortApplyConfiguration.WithTargetPort (b : ServicePortApplyConfiguration)
    (value : IntOrString) : ServicePortApplyConfiguration :=
  { b with TargetPort := some value }

/-! ## install.go: the two descriptors -/

/-- Lines 61-93 of `installCmd.Run`: the env vars, the container port, the
pod spec and the daemon set, from the locals `telemetryBroker`,
`telemetryNamespace`, `imageName` and `secretName`. -/
def buildDaemonSet (telemetryBroker telemetryNamespace imageName secretName : String) :
    DaemonSetApplyConfiguration :=
  let retrievalType : EnvVarApplyConfiguration := {}
  let retrievalType := (retrievalType.WithName "RETRIEVAL_TYPE").WithValue "standalone"
  let podName : EnvVarApplyConfiguration := {}
  let podName := (podName.WithName "CURRENT_NODE").WithValueFrom
    (some
      { FieldRef := some
          (({} : ObjectFieldSelectorApplyConfiguration).WithFieldPath "spec.nodeName") })
  let containerPort : ContainerPortApplyConfiguration := {}
  let containerPort := containerPort.WithContainerPort 8080
  let pullPolicy := PullPolicy.PullAlways
  let podSpec := ({} : PodSpecApplyConfiguration).WithContainers
    [{ Image := some imageName,
       ImagePullPolicy := some pullPolicy,
       Name := some telemetryBroker,
       EnvFrom :=
         [{ SecretRef := some (({} : SecretEnvSourceApplyConfiguration).WithName secretName) }],
       Env := [retrievalType, podName],
       Ports := [containerPort] }]
  let daemonSet := DaemonSet telemetryBroker telemetryNamespace
  let daemonSet := daemonSet.WithLabels (mapLit [("app", telemetryBroker)])
  let daemonSet := daemonSet.WithSpec
    (some { Selector := some { MatchLabels := mapLit [("app", telemetryBroker)] },
            Template := some
              (((({} : PodTemplateSpecApplyConfiguration).WithNamespace telemetryNamespace).WithLabels
                (mapLit [("app", telemetryBroker), ("version", "v1")])).WithSpec (some podSpec)) })
  daemonSet

/-- Lines 105-114 of `installCmd.Run`: the service port and the service.  The
chain on `service` is called for its effect on the pointed-to value. -/
def buildService (telemetryBroker telemetryNamespace : String) : ServiceApplyConfiguration :=
  let service := Service telemetryBroker telemetryNamespace
  let servicePort : ServicePortApplyConfiguration := {}
  let servicePort :=
    ((servicePort.WithName "http").WithPort 8080).WithTargetPort { IntVal := 8080 }
  let service := (service.WithLabels (mapLit [("app", telemetryBroker)])).WithSpec
    (some { Ports := [servicePort],
            Selector := mapLit [("app", telemetryBroker)] })
  service

/-- The daemon set of a run: `buildDaemonSet` at the values the locals of
`installCmd.Run` have (lines 48, 49, 56 and 58). -/
def installDaemonSet (ImageName SecretName : String) : DaemonSetApplyConfiguration :=
  buildDaemonSet "telemetry-broker" "telemetry" ImageName SecretName

/-- The service of a run: `buildService` at the values of the locals. -/
def installService : ServiceApplyConfiguration :=
  buildService "telemetry-broker" "telemetry"

/-- The apply options install passes to both calls:
`metav1.ApplyOptions{FieldManager: "system"}`. -/
def installOptions : ApplyOptions :=
  { FieldManager := "system" }

/-! ## install.go: the procedure -/

/-- What a run does that is visible from outside, in order. -/
inductive Event
  /-- A line written through package `log` (without the timestamp). -/
  | log (line : String)
  /-- The call `clientset.AppsV1().DaemonSets(ns).Apply(ctx, ds, opts)`
  together with the `err` it returned. -/
  | applyDaemonSet (ns : String) (ds : DaemonSetApplyConfiguration) (opts : ApplyOptions)
      (err : Option String)
  /-- The call `clientset.CoreV1().Services(ns).Apply(ctx, svc, opts)`
  together with the `err` it returned. -/
  | applyService (ns : String) (svc : ServiceApplyConfiguration) (opts : ApplyOptions)
      (err : Option String)
  deriving DecidableEq, Repr

/-- How a run ends. -/
inductive Exit
  /-- `Run` returns to cobra. -/
  | returned
  /-- A `panic(msg)` nobody recovers: the runtime prints the message and a
  stack trace and the process exits with status 2.  Nothing goes through
  package `log`. -/
  | panicked (msg : String)
  /-- A call of `os.Exit(code)`: by `log.Fatalln` (status 1) after it wrote
  its line, or by `flag.Parse` on the `ExitOnError` command line. -/
  | exited (code : Nat)
  deriving DecidableEq, Repr

/-- The result of a run: the events, the way it ended, and the cluster state
it left. -/
structure Outcome (σ : Type) where
  events : List Event
  exit : Exit
  cluster : σ

/-- The machine install runs on; `κ` is `*rest.Config`, `ρ` is
`*kubernetes.Clientset`. -/
structure Host (κ ρ : Type) where
  /-- The function `homedir.HomeDir()`. -/
  HomeDir : String
  /-- The function `filepath.Join(elem...)`. -/
  Join : List String → String
  /-- The pair `flag.String("kubeconfig", dflt, ...)`, `flag.Parse()`: the value
  of `*kubeconfig` afterwards, or the status `flag.Parse` exits with. -/
  flagParse : String → Except Nat String
  /-- The function `clientcmd.BuildConfigFromFlags(masterUrl, kubeconfigPath)`. -/
  BuildConfigFromFlags : String → String → Except String κ
  /-- The function `kubernetes.NewForConfig(config)`. -/
  NewForConfig : κ → Except String ρ

/-- The cluster behind a clientset, with states `σ`: each `Apply` call gets
the namespace of the namespaced client, the configuration and the options,
and answers with the `err` it returns and the state it leaves. -/
structure Api (ρ σ : Type) where
  applyDaemonSet : ρ → String → DaemonSetApplyConfiguration → ApplyOptions → σ →
    Option String × σ
  applyService : ρ → String → ServiceApplyConfiguration → ApplyOptions → σ →
    Option String × σ

/-- The text `fmt.Sprintln(args...)` makes of its arguments, without the final
newline: a blank between every two operands. -/
def sprintln (args : List String) : String :=
  " ".intercalate args

/-- Lines 32-37 of `installCmd.Run`: the default of the `kubeconfig` flag. -/
def kubeconfigDefault {κ ρ : Type} (h : Host κ ρ) : String :=
  if h.HomeDir ≠ "" then h.Join [h.HomeDir, ".kube", "config"] else ""

/-- The function literal `installCmd.Run`, with the globals `ImageName` and
`SecretName` as arguments and the cluster state `s` it starts from. -/
def Run {κ ρ σ : Type} (h : Host κ ρ) (api : Api ρ σ) (ImageName SecretName : String)
    (s : σ) : Outcome σ :=
  match h.flagParse (kubeconfigDefault h) with
  | Except.error code => { events := [], exit := Exit.exited code, cluster := s }
  | Except.ok kubeconfig =>
  match h.BuildConfigFromFlags "" kubeconfig with
  | Except.error err => { events := [], exit := Exit.panicked err, cluster := s }
  | Except.ok config =>
  let clientset := h.NewForConfig config
  let telemetryNamespace := "telemetry"
  let telemetryBroker := "telemetry-broker"
  match clientset with
  | Except.error err => { events := [], exit := Exit.panicked err, cluster := s }
  | Except.ok clientset =>
  let ev := [Event.log (sprintln ["Creating daemonSet"])]
  let imageName := ImageName
  let ev := ev ++ [Event.log (sprintln ["Using image: ", imageName])]
  let secretName := SecretName
  let ev := ev ++ [Event.log (sprintln ["Will fetch secrets from: ", secretName])]
  let daemonSet := buildDaemonSet telemetryBroker telemetryNamespace imageName secretName
  let opts : ApplyOptions := { FieldManager := "system" }
  match api.applyDaemonSet clientset telemetryNamespace daemonSet opts s with
  | (some err, s1) =>
    { events := ev ++ [Event.applyDaemonSet telemetryNamespace daemonSet opts (some err),
        Event.log (sprintln ["Failed to create daemonSet for telemetry broker, error: ", err])],
      exit := Exit.exited 1, cluster := s1 }
  | (none, s1) =>
  let ev := ev ++ [Event.applyDaemonSet telemetryNamespace daemonSet opts none]
  let ev := ev ++ [Event.log (sprintln ["Successfully created daemonSet"])]
  let ev := ev ++ [Event.log (sprintln ["Creating service"])]
  let service := buildService telemetryBroker telemetryNamespace
  let opts : ApplyOptions := { FieldManager := "system" }
  match api.applyService clientset telemetryNamespace service opts s1 with
  | (some err, s2) =>
    { events := ev ++ [Event.applyService telemetryNamespace service opts (some err),
        Event.log (sprintln ["Failed to create service: ", err])],
      exit := Exit.exited 1, cluster := s2 }
  | (none, s2) =>
    { events := ev ++ [Event.applyService telemetryNamespace service opts none,
        Event.log (sprintln ["Successfully created service ", telemetryBroker])],
      exit := Exit.returned, cluster := s2 }

/-! ## Hosts and clusters for the examples -/

/-- A host where everything succeeds: home `/root`, the flag left at its
default, the configuration is the path. -/
def okHost : Host String Unit where
  HomeDir := "/root"
  Join := "/".intercalate
  flagParse := fun dflt => Except.ok dflt
  BuildConfigFromFlags := fun _ path => Except.ok path
  NewForConfig := fun _ => Except.ok ()

/-- A host whose kubeconfig file cannot be loaded. -/
def noKubeconfigHost : Host String Unit where
  HomeDir := "/root"
  Join := "/".intercalate
  flagParse := fun dflt => Except.ok dflt
  BuildConfigFromFlags := fun _ _ => Except.error "invalid configuration: no configuration has been provided"
  NewForConfig := fun _ => Except.ok ()

/-- A host whose kubeconfig loads and whose clientset cannot be made. -/
def noClientsetHost : Host String Unit where
  HomeDir := "/root"
  Join := "/".intercalate
  flagParse := fun dflt => Except.ok dflt
  BuildConfigFromFlags := fun _ path => Except.ok path
  NewForConfig := fun _ => Except.error "host must be a URL or a host:port pair"

/-- A cluster without state that accepts every submission. -/
def okApi : Api Unit Unit where
  applyDaemonSet := fun _ _ _ _ s => (none, s)
  applyService := fun _ _ _ _ s => (none, s)

/-- A cluster without state that refuses every daemon set and accepts every
service. -/
def noDaemonSetApi : Api Unit Unit where
  applyDaemonSet := fun _ _ _ _ s => (some "daemonsets.apps is forbidden", s)
  applyService := fun _ _ _ _ s => (none, s)

/-- A cluster without state that accepts every daemon set and refuses every
service. -/
def noServiceApi : Api Unit Unit where
  applyDaemonSet := fun _ _ _ _ s => (none, s)
  applyService := fun _ _ _ _ s => (some "services is forbidden", s)

/-! ## The cluster, for the re-run property -/

/-- The two kinds of stored configuration. -/
inductive Manifest
  | daemonSet (ds : DaemonSetApplyConfiguration)
  | service (svc : ServiceApplyConfiguration)
  deriving DecidableEq, Repr

/-- A resource of the cluster: its identity (kind, namespace, name), the
field manager that owns it, and the configuration last applied. -/
structure Resource where
  kind : String
  namespace_ : String
  name : String
  manager : String
  manifest : Manifest
  deriving DecidableEq, Repr

/-- A cluster state: the resources, one per identity. -/
abbrev Cluster := List Resource

/-- Whether `r` has the identity (kind, namespace, name). -/
def Resource.hasIdentity (r : Resource) (kind ns name : String) : Bool :=
  r.kind = kind ∧ r.namespace_ = ns ∧ r.name = name

/-- The resource of the given identity, when the cluster has one. -/
def Cluster.lookup (kind ns name : String) : Cluster → Option Resource
  | [] => none
  | x :: rest => if x.hasIdentity kind ns name then some x else Cluster.lookup kind ns name rest

/-- Create-or-update: `r` takes the place of the resource of its identity, or
is added when there is none. -/
def Cluster.store (r : Resource) : Cluster → Cluster
  | [] => [r]
  | x :: rest =>
    if x.hasIdentity r.kind r.namespace_ r.name then r :: rest else x :: Cluster.store r rest

/-- Modelled from the spec: the cluster control plane is not part of the
repository.  This is the apply semantics of the spec's glossary and section
4.1: a submission is create-or-update on the resource of the same identity
(kind, namespace, name), ownership goes to the named field manager, and a
resource of that identity owned by a different manager is a conflict, which
is answered with an error and leaves the state as it was.  The resource of
one manager holds the configuration that manager applied last, so the merge
of a configuration into the resource of its own manager is that
configuration.  A configuration without a name is refused before anything is
sent, as the typed clients of client-go do. -/
def Cluster.apply (kind ns : String) (name : Option String) (manifest : Manifest)
    (opts : ApplyOptions) (c : Cluster) : Option String × Cluster :=
  match name with
  | none => (some (kind ++ ".Name must be provided to Apply"), c)
  | some name =>
    let r : Resource :=
      { kind := kind, namespace_ := ns, name := name, manager := opts.FieldManager,
        manifest := manifest }
    match Cluster.lookup kind ns name c with
    | none => (none, Cluster.store r c)
    | some old =>
      if old.manager = opts.FieldManager then (none, Cluster.store r c)
      else (some ("Apply failed with 1 conflict: conflict with " ++ old.manager), c)

/-- The name in a configuration's object meta. -/
def metaName (m : Option ObjectMetaApplyConfiguration) : Option String :=
  m.bind fun meta => meta.Name

/-- Modelled from the spec: the two `Apply` calls against the cluster of
`Cluster.apply`. -/
def clusterApi (ρ : Type) : Api ρ Cluster where
  applyDaemonSet := fun _ ns ds opts c =>
    Cluster.apply "DaemonSet" ns (metaName ds.ObjectMeta) (Manifest.daemonSet ds) opts c
  applyService := fun _ ns svc opts c =>
    Cluster.apply "Service" ns (metaName svc.ObjectMeta) (Manifest.service svc) opts c

/-- The ending by `log.Fatalln`: the last event is a line written through
package `log` and the process exits with a status that is not zero. -/
def Outcome.FatalLogged {σ : Type} (o : Outcome σ) : Prop :=
  ∃ code line, code ≠ 0 ∧ o.exit = Exit.exited code ∧ o.events.getLast? = some (Event.log line)

/-- No event of the list is a service submission. -/
def NoServiceSubmission (events : List Event) : Prop :=
  ∀ ns svc opts err, Event.applyService ns svc opts err ∉ events

/-- The resource a successful daemon-set submission of install leaves. -/
def installedDaemonSet (ImageName SecretName : String) : Resource :=
  { kind := "DaemonSet", namespace_ := "telemetry", name := "telemetry-broker",
    manager := "system", manifest := Manifest.daemonSet (installDaemonSet ImageName SecretName) }

/-- The resource a successful service submission of install leaves. -/
def installedService : Resource :=
  { kind := "Service", namespace_ := "telemetry", name := "telemetry-broker",
    manager := "system", manifest := Manifest.service installService }

/-! ## The ways a run can go -/

/-- The host gets as far as a clientset `cs`: `flag.Parse` returns, the
kubeconfig loads, and the clientset is made. -/
def Host.Connects {κ ρ : Type} (h : Host κ ρ) (cs : ρ) : Prop :=
  ∃ kubeconfig config,
    h.flagParse (kubeconfigDefault h) = Except.ok kubeconfig ∧
    h.BuildConfigFromFlags "" kubeconfig = Except.ok config ∧
    h.NewForConfig config = Except.ok cs

/-- The three lines logged before the first submission. -/
def eventsBefore (ImageName SecretName : String) : List Event :=
  [Event.log (sprintln ["Creating daemonSet"]),
   Event.log (sprintln ["Using image: ", ImageName]),
   Event.log (sprintln ["Will fetch secrets from: ", SecretName])]

/-- The events of a run whose daemon-set submission fails with `err`. -/
def eventsDaemonSetFailed (ImageName SecretName err : String) : List Event :=
  eventsBefore ImageName SecretName ++
    [Event.applyDaemonSet "telemetry" (installDaemonSet ImageName SecretName) installOptions
       (some err),
     Event.log (sprintln ["Failed to create daemonSet for telemetry broker, error: ", err])]

/-- The events up to and including the lines after a daemon-set submission
that succeeded. -/
def eventsDaemonSetDone (ImageName SecretName : String) : List Event :=
  eventsBefore ImageName SecretName ++
    [Event.applyDaemonSet "telemetry" (installDaemonSet ImageName SecretName) installOptions none,
     Event.log (sprintln ["Successfully created daemonSet"]),
     Event.log (sprintln ["Creating service"])]

/-- The events of a run whose service submission fails with `err`. -/
def eventsServiceFailed (ImageName SecretName err : String) : List Event :=
  eventsDaemonSetDone ImageName SecretName ++
    [Event.applyService "telemetry" installService installOptions (some err),
     Event.log (sprintln ["Failed to create service: ", err])]

/-- The events of a run whose two submissions succeed. -/
def eventsSucceeded (ImageName SecretName : String) : List Event :=
  eventsDaemonSetDone ImageName SecretName ++
    [Event.applyService "telemetry" installService installOptions none,
     Event.log (sprintln ["Successfully created service ", "telemetry-broker"])]

/-- The submissions among the events. -/
def submissions (events : List Event) : List Event :=
  events.filter fun e =>
    match e with
    | Event.log _ => false
    | Event.applyDaemonSet _ _ _ _ => true
    | Event.applyService _ _ _ _ => true

section RunLemmas

variable {κ ρ σ : Type} (h : Host κ ρ) (api : Api ρ σ) (img sec : String) (s : σ)

theorem Run_of_flagParse_error {code : Nat}
    (hf : h.flagParse (kubeconfigDefault h) = Except.error code) :
    Run h api img sec s = { events := [], exit := Exit.exited code, cluster := s } := by
  simp only [Run, hf]

theorem Run_of_buildConfig_error {kubeconfig err : String}
    (hf : h.flagParse (kubeconfigDefault h) = Except.ok kubeconfig)
    (hb : h.BuildConfigFromFlags "" kubeconfig = Except.error err) :
    Run h api img sec s = { events := [], exit := Exit.panicked err, cluster := s } := by
  simp only [Run, hf, hb]

theorem Run_of_newForConfig_error {kubeconfig : String} {config : κ} {err : String}
    (hf : h.flagParse (kubeconfigDefault h) = Except.ok kubeconfig)
    (hb : h.BuildConfigFromFlags "" kubeconfig = Except.ok config)
    (hn : h.NewForConfig config = Except.error err) :
    Run h api img sec s = { events := [], exit := Exit.panicked err, cluster := s } := by
  simp only [Run, hf, hb, hn]

theorem Run_of_daemonSet_error {cs : ρ} {err : String} {s1 : σ} (hc : h.Connects cs)
    (hd : api.applyDaemonSet cs "telemetry" (installDaemonSet img sec) installOptions s
      = (some err, s1)) :
    Run h api img sec s =
      { events := eventsDaemonSetFailed img sec err, exit := Exit.exited 1, cluster := s1 } := by
  obtain ⟨kubeconfig, config, hf, hb, hn⟩ := hc
  simp only [installDaemonSet, installOptions] at hd
  simp only [Run, hf, hb, hn, hd]
  rfl

theorem Run_of_service_error {cs : ρ} {err : String} {s1 s2 : σ} (hc : h.Connects cs)
    (hd : api.applyDaemonSet cs "telemetry" (installDaemonSet img sec) installOptions s
      = (none, s1))
    (hs : api.applyService cs "telemetry" installService installOptions s1 = (some err, s2)) :
    Run h api img sec s =
      { events := eventsServiceFailed img sec err, exit := Exit.exited 1, cluster := s2 } := by
  obtain ⟨kubeconfig, config, hf, hb, hn⟩ := hc
  simp only [installDaemonSet, installService, installOptions] at hd hs
  simp only [Run, hf, hb, hn, hd, hs]
  rfl

theorem Run_of_success {cs : ρ} {s1 s2 : σ} (hc : h.Connects cs)
    (hd : api.applyDaemonSet cs "telemetry" (installDaemonSet img sec) installOptions s
      = (none, s1))
    (hs : api.applyService cs "telemetry" installService installOptions s1 = (none, s2)) :
    Run h api img sec s =
      { events := eventsSucceeded img sec, exit := Exit.returned, cluster := s2 } := by
  obtain ⟨kubeconfig, config, hf, hb, hn⟩ := hc
  simp only [installDaemonSet, installService, installOptions] at hd hs
  simp only [Run, hf, hb, hn, hd, hs]
  rfl

/-- Every run goes one of six ways. -/
theorem Run_cases :
    (∃ code, h.flagParse (kubeconfigDefault h) = Except.error code ∧
      Run h api img sec s = { events := [], exit := Exit.exited code, cluster := s }) ∨
    (∃ kubeconfig err, h.flagParse (kubeconfigDefault h) = Except.ok kubeconfig ∧
      h.BuildConfigFromFlags "" kubeconfig = Except.error err ∧
      Run h api img sec s = { events := [], exit := Exit.panicked err, cluster := s }) ∨
    (∃ kubeconfig config err, h.flagParse (kubeconfigDefault h) = Except.ok kubeconfig ∧
      h.BuildConfigFromFlags "" kubeconfig = Except.ok config ∧
      h.NewForConfig config = Except.error err ∧
      Run h api img sec s = { events := [], exit := Exit.panicked err, cluster := s }) ∨
    (∃ cs err s1, h.Connects cs ∧
      api.applyDaemonSet cs "telemetry" (installDaemonSet img sec) installOptions s
        = (some err, s1) ∧
      Run h api img sec s =
        { events := eventsDaemonSetFailed img sec err, exit := Exit.exited 1, cluster := s1 }) ∨
    (∃ cs err s1 s2, h.Connects cs ∧
      api.applyDaemonSet cs "telemetry" (installDaemonSet img sec) installOptions s
        = (none, s1) ∧
      api.applyService cs "telemetry" installService installOptions s1 = (some err, s2) ∧
      Run h api img sec s =
        { events := eventsServiceFailed img sec err, exit := Exit.exited 1, cluster := s2 }) ∨
    (∃ cs s1 s2, h.Connects cs ∧
      api.applyDaemonSet cs "telemetry" (installDaemonSet img sec) installOptions s
        = (none, s1) ∧
      api.applyService cs "telemetry" installService installOptions s1 = (none, s2) ∧
      Run h api img sec s =
        { events := eventsSucceeded img sec, exit := Exit.returned, cluster := s2 }) := by
  rcases hf : h.flagParse (kubeconfigDefault h) with code | kubeconfig
  · exact Or.inl ⟨code, rfl, Run_of_flagParse_error h api img sec s hf⟩
  rcases hb : h.BuildConfigFromFlags "" kubeconfig with err | config
  · exact Or.inr (Or.inl ⟨kubeconfig, err, rfl, hb, Run_of_buildConfig_error h api img sec s hf hb⟩)
  rcases hn : h.NewForConfig config with err | cs
  · exact Or.inr (Or.inr (Or.inl
      ⟨kubeconfig, config, err, rfl, hb, hn, Run_of_newForConfig_error h api img sec s hf hb hn⟩))
  have hc : h.Connects cs := ⟨kubeconfig, config, hf, hb, hn⟩
  rcases hd : api.applyDaemonSet cs "telemetry" (installDaemonSet img sec) installOptions s
    with ⟨_ | err, s1⟩
  · rcases hs : api.applyService cs "telemetry" installService installOptions s1
      with ⟨_ | err, s2⟩
    · exact Or.inr (Or.inr (Or.inr (Or.inr (Or.inr
        ⟨cs, s1, s2, hc, hd, hs, Run_of_success h api img sec s hc hd hs⟩))))
    · exact Or.inr (Or.inr (Or.inr (Or.inr (Or.inl
        ⟨cs, err, s1, s2, hc, hd, hs, Run_of_service_error h api img sec s hc hd hs⟩))))
  · exact Or.inr (Or.inr (Or.inr (Or.inl
      ⟨cs, err, s1, hc, hd, Run_of_daemonSet_error h api img sec s hc hd⟩)))

end RunLemmas

/-! ## The descriptors -/

/-- C2: for every image name and secret name, the daemon set built by install
has a spec with a selector and a pod template with object meta, and every
key/value pair of the selector's `matchLabels` is a key/value pair of the
template's labels. -/
theorem daemonSet_selector_subset_template_labels (img sec : String) :
    ∃ spec selector template tmeta,
      (installDaemonSet img sec).Spec = some spec ∧
      spec.Selector = some selector ∧
      spec.Template = some template ∧
      template.ObjectMeta = some tmeta ∧
      ∀ k v, mapGet selector.MatchLabels k = some v → mapGet tmeta.Labels k = some v := by
  refine ⟨_, _, _, _, rfl, rfl, rfl, rfl, ?_⟩
  intro k v hkv
  have hsel : mapGet [("app", "telemetry-broker")] k = some v := hkv
  show mapGet [("app", "telemetry-broker"), ("version", "v1")] k = some v
  by_cases hk : "app" = k
  · simpa [mapGet, hk] using hsel
  · simp [mapGet, hk] at hsel

/-- C3: for every image name and secret name, the selector of the service
built by install is exactly the map with the one entry app = telemetry-broker,
it is equal to the labels of the daemon set itself, and every pair of it is in
the labels of the daemon set's pod template. -/
theorem service_selector_matches_daemonSet (img sec : String) :
    ∃ svcSpec dsMeta dsSpec template tmeta,
      installService.Spec = some svcSpec ∧
      (installDaemonSet img sec).ObjectMeta = some dsMeta ∧
      (installDaemonSet img sec).Spec = some dsSpec ∧
      dsSpec.Template = some template ∧
      template.ObjectMeta = some tmeta ∧
      svcSpec.Selector = [("app", "telemetry-broker")] ∧
      (∀ k, mapGet svcSpec.Selector k = if k = "app" then some "telemetry-broker" else none) ∧
      svcSpec.Selector = dsMeta.Labels ∧
      ∀ k v, mapGet svcSpec.Selector k = some v → mapGet tmeta.Labels k = some v := by
  refine ⟨_, _, _, _, _, rfl, rfl, rfl, rfl, rfl, rfl, ?_, rfl, ?_⟩
  · intro k
    show mapGet [("app", "telemetry-broker")] k = _
    by_cases hk : k = "app"
    · simp [mapGet, hk]
    · have hk2 : ¬ "app" = k := fun e => hk e.symm
      simp [mapGet, hk, hk2]
  · intro k v hkv
    have hsel : mapGet [("app", "telemetry-broker")] k = some v := hkv
    show mapGet [("app", "telemetry-broker"), ("version", "v1")] k = some v
    by_cases hk : "app" = k
    · simpa [mapGet, hk] using hsel
    · simp [mapGet, hk] at hsel

/-- C4: for every image name `s`, the pod spec built by install has exactly
one container, whose image is `s` unchanged and whose pull policy is Always;
and no run checks `s`: whenever the host gets as far as a clientset, the daemon
set carrying `s` is submitted. -/
theorem container_image_unchanged (s sec : String) :
    (∃ spec template podSpec c,
      (installDaemonSet s sec).Spec = some spec ∧
      spec.Template = some template ∧
      template.Spec = some podSpec ∧
      podSpec.Containers = [c] ∧
      c.Image = some s ∧
      c.ImagePullPolicy = some PullPolicy.PullAlways) ∧
    ∀ {κ ρ σ : Type} (h : Host κ ρ) (api : Api ρ σ) (st : σ) (cs : ρ), h.Connects cs →
      ∃ err, Event.applyDaemonSet "telemetry" (installDaemonSet s sec) installOptions err ∈
        (Run h api s sec st).events := by
  refine ⟨⟨_, _, _, _, rfl, rfl, rfl, rfl, rfl, rfl⟩, ?_⟩
  intro κ ρ σ h api st cs hc
  rcases hd : api.applyDaemonSet cs "telemetry" (installDaemonSet s sec) installOptions st
    with ⟨_ | err, s1⟩
  · rcases hs : api.applyService cs "telemetry" installService installOptions s1
      with ⟨_ | err, s2⟩
    · refine ⟨none, ?_⟩
      rw [Run_of_success h api s sec st hc hd hs]
      simp [eventsSucceeded, eventsDaemonSetDone]
    · refine ⟨none, ?_⟩
      rw [Run_of_service_error h api s sec st hc hd hs]
      simp [eventsServiceFailed, eventsDaemonSetDone]
  · refine ⟨some err, ?_⟩
    rw [Run_of_daemonSet_error h api s sec st hc hd]
    simp [eventsDaemonSetFailed]

/-- C5: for every secret name `n`, the one container of the pod template
built by install has exactly one `envFrom` source, and that source is a secret
reference (no prefix, no config map) whose name is `n` unchanged. -/
theorem container_envFrom_secret (img n : String) :
    ∃ spec template podSpec c src ref,
      (installDaemonSet img n).Spec = some spec ∧
      spec.Template = some template ∧
      template.Spec = some podSpec ∧
      podSpec.Containers = [c] ∧
      c.EnvFrom = [src] ∧
      src.SecretRef = some ref ∧
      src.ConfigMapRef = none ∧
      src.Prefix = none ∧
      ref.Name = some n :=
  ⟨_, _, _, _, _, _, rfl, rfl, rfl, rfl, rfl, rfl, rfl, rfl, rfl⟩

/-- C7: for every image name and secret name, the env list of the container
built by install is exactly two entries, in order: RETRIEVAL_TYPE with the
literal value standalone and no valueFrom, then CURRENT_NODE with no literal
value and a valueFrom whose field reference has the field path spec.nodeName. -/
theorem container_env (img sec : String) :
    ∃ spec template podSpec c,
      (installDaemonSet img sec).Spec = some spec ∧
      spec.Template = some template ∧
      template.Spec = some podSpec ∧
      podSpec.Containers = [c] ∧
      c.Env =
        [{ Name := some "RETRIEVAL_TYPE", Value := some "standalone", ValueFrom := none },
         { Name := some "CURRENT_NODE", Value := none,
           ValueFrom := some
             { FieldRef := some { APIVersion := none, FieldPath := some "spec.nodeName" } } }] :=
  ⟨_, _, _, _, rfl, rfl, rfl, rfl, rfl⟩

/-- C10: for every image name and secret name, the service built by install
has exactly one port entry, named http, with port 8080 and an integer-typed
target port 8080 (type tag Int, empty string value), and that target is the
one container port of the daemon set's container. -/
theorem service_port_targets_container_port (img sec : String) :
    ∃ svcSpec p target spec template podSpec c cp,
      installService.Spec = some svcSpec ∧
      svcSpec.Ports = [p] ∧
      p.Name = some "http" ∧
      p.Port = some 8080 ∧
      p.TargetPort = some target ∧
      target = { Type_ := IntStrType.Int, IntVal := 8080, StrVal := "" } ∧
      target.Type_ = IntStrType.Int ∧
      target.IntVal = 8080 ∧
      (installDaemonSet img sec).Spec = some spec ∧
      spec.Template = some template ∧
      template.Spec = some podSpec ∧
      podSpec.Containers = [c] ∧
      c.Ports = [cp] ∧
      cp.ContainerPort = some target.IntVal :=
  ⟨_, _, _, _, _, _, _, _, rfl, rfl, rfl, rfl, rfl, rfl, rfl, rfl, rfl, rfl, rfl, rfl, rfl, rfl⟩

/-- The host `okHost` gets as far as a clientset. -/
theorem okHost_connects : okHost.Connects () :=
  ⟨"/root/.kube/config", "/root/.kube/config", rfl, rfl, rfl⟩

/-- C4 at the image name foo/bar:v1 on a host that connects: the daemon set
with that image is submitted. -/
theorem container_image_unchanged_witness :
    okHost.Connects () ∧
    ∃ err, Event.applyDaemonSet "telemetry" (installDaemonSet "foo/bar:v1" "my-secret")
      installOptions err ∈ (Run okHost okApi "foo/bar:v1" "my-secret" ()).events :=
  ⟨okHost_connects,
   (container_image_unchanged "foo/bar:v1" "my-secret").2 okHost okApi () () okHost_connects⟩

/-! ## The order of the submissions -/

theorem noServiceSubmission_eventsDaemonSetDone (img sec : String) :
    NoServiceSubmission (eventsDaemonSetDone img sec) := by
  intro ns svc opts err hmem
  simp [eventsDaemonSetDone, eventsBefore] at hmem

theorem noServiceSubmission_eventsDaemonSetFailed (img sec err : String) :
    NoServiceSubmission (eventsDaemonSetFailed img sec err) := by
  intro ns svc opts e hmem
  simp [eventsDaemonSetFailed, eventsBefore] at hmem

/-- When a list splits at a service submission and also as `done ++ tail`
with no service submission in `done`, the part before the split contains
`done`. -/
theorem mem_before_service_submission {done tail pre post : List Event} {x e : Event}
    (hx : ∃ ns svc opts err, x = Event.applyService ns svc opts err)
    (hdone : NoServiceSubmission done) (he : e ∈ done)
    (hsplit : done ++ tail = pre ++ x :: post) : e ∈ pre := by
  rcases List.append_eq_append_iff.mp hsplit with ⟨a, hpre, _⟩ | ⟨a, hd, ha⟩
  · rw [hpre]
    exact List.mem_append_left _ he
  · cases a with
    | nil =>
      rw [List.append_nil] at hd
      rw [← hd]
      exact he
    | cons y ys =>
      exfalso
      obtain ⟨ns, svc, opts, err, rfl⟩ := hx
      have hy : y = Event.applyService ns svc opts err := by
        have := ha
        simp at this
        exact this.1.symm
      apply hdone ns svc opts err
      rw [hd, ← hy]
      simp

/-- C1: in every run, for every image name, secret name and cluster: if the
daemon-set Apply returned an error, no service Apply is among the events, and
the daemon-set Apply is the only submission; and a service Apply is always
preceded by a daemon-set Apply that returned no error. -/
theorem service_only_after_daemonSet {κ ρ σ : Type} (h : Host κ ρ) (api : Api ρ σ)
    (img sec : String) (s : σ) :
    (∀ ns ds opts err, Event.applyDaemonSet ns ds opts (some err) ∈ (Run h api img sec s).events →
      NoServiceSubmission (Run h api img sec s).events) ∧
    (∀ cs err s1, h.Connects cs →
      api.applyDaemonSet cs "telemetry" (installDaemonSet img sec) installOptions s
        = (some err, s1) →
      submissions (Run h api img sec s).events =
        [Event.applyDaemonSet "telemetry" (installDaemonSet img sec) installOptions (some err)]) ∧
    (∀ pre post ns svc opts err,
      (Run h api img sec s).events = pre ++ Event.applyService ns svc opts err :: post →
      ∃ ns1 ds opts1, Event.applyDaemonSet ns1 ds opts1 none ∈ pre) := by
  refine ⟨?_, ?_, ?_⟩
  · intro ns ds opts err hmem
    rcases Run_cases h api img sec s with ⟨_, _, hr⟩ | ⟨_, _, _, _, hr⟩ | ⟨_, _, _, _, _, _, hr⟩ |
      ⟨_, _, _, _, _, hr⟩ | ⟨_, _, _, _, _, _, _, hr⟩ | ⟨_, _, _, _, _, _, hr⟩ <;>
      rw [hr] at hmem ⊢
    · intro _ _ _ _ hm; simp at hm
    · intro _ _ _ _ hm; simp at hm
    · intro _ _ _ _ hm; simp at hm
    · exact noServiceSubmission_eventsDaemonSetFailed _ _ _
    · simp [eventsServiceFailed, eventsDaemonSetDone, eventsBefore] at hmem
    · simp [eventsSucceeded, eventsDaemonSetDone, eventsBefore] at hmem
  · intro cs err s1 hc hd
    rw [Run_of_daemonSet_error h api img sec s hc hd]
    simp [submissions, eventsDaemonSetFailed, eventsBefore]
  · intro pre post ns svc opts err hsplit
    have hds : Event.applyDaemonSet "telemetry" (installDaemonSet img sec) installOptions none ∈
        eventsDaemonSetDone img sec := by
      simp [eventsDaemonSetDone]
    rcases Run_cases h api img sec s with ⟨_, _, hr⟩ | ⟨_, _, _, _, hr⟩ | ⟨_, _, _, _, _, _, hr⟩ |
      ⟨_, e, _, _, _, hr⟩ | ⟨_, e, _, _, _, _, _, hr⟩ | ⟨_, _, _, _, _, _, hr⟩ <;>
      rw [hr] at hsplit
    · simp at hsplit
    · simp at hsplit
    · simp at hsplit
    · exfalso
      apply noServiceSubmission_eventsDaemonSetFailed img sec e ns svc opts err
      have : (eventsDaemonSetFailed img sec e) = pre ++ Event.applyService ns svc opts err :: post :=
        hsplit
      rw [this]
      simp
    · exact ⟨_, _, _, mem_before_service_submission ⟨ns, svc, opts, err, rfl⟩
        (noServiceSubmission_eventsDaemonSetDone img sec) hds hsplit⟩
    · exact ⟨_, _, _, mem_before_service_submission ⟨ns, svc, opts, err, rfl⟩
        (noServiceSubmission_eventsDaemonSetDone img sec) hds hsplit⟩

/-- C1 on a cluster that refuses the daemon set: the refused submission is
among the events and no service submission is. -/
theorem service_only_after_daemonSet_witness :
    Event.applyDaemonSet "telemetry" (installDaemonSet "foo/bar:v1" "my-secret") installOptions
        (some "daemonsets.apps is forbidden") ∈
      (Run okHost noDaemonSetApi "foo/bar:v1" "my-secret" ()).events ∧
    NoServiceSubmission (Run okHost noDaemonSetApi "foo/bar:v1" "my-secret" ()).events :=
  have hmem : Event.applyDaemonSet "telemetry" (installDaemonSet "foo/bar:v1" "my-secret")
      installOptions (some "daemonsets.apps is forbidden") ∈
      (Run okHost noDaemonSetApi "foo/bar:v1" "my-secret" ()).events := by
    rw [Run_of_daemonSet_error okHost noDaemonSetApi "foo/bar:v1" "my-secret" () okHost_connects rfl]
    simp [eventsDaemonSetFailed]
  ⟨hmem, (service_only_after_daemonSet okHost noDaemonSetApi "foo/bar:v1" "my-secret" ()).1
    _ _ _ _ hmem⟩

/-! ## Where the submissions go -/

/-- C6: in every run, every daemon-set submission and every service
submission goes to the namespaced client of namespace telemetry, carries name
telemetry-broker and namespace telemetry in its object meta, and uses apply
options with field manager system; and a run that returns made exactly these
two submissions, the daemon set first. -/
theorem submissions_scoped {κ ρ σ : Type} (h : Host κ ρ) (api : Api ρ σ)
    (img sec : String) (s : σ) :
    (∀ ns ds opts err, Event.applyDaemonSet ns ds opts err ∈ (Run h api img sec s).events →
      ns = "telemetry" ∧ opts.FieldManager = "system" ∧
      ∃ dmeta, ds.ObjectMeta = some dmeta ∧ dmeta.Name = some "telemetry-broker" ∧
        dmeta.Namespace = some "telemetry") ∧
    (∀ ns svc opts err, Event.applyService ns svc opts err ∈ (Run h api img sec s).events →
      ns = "telemetry" ∧ opts.FieldManager = "system" ∧
      ∃ smeta, svc.ObjectMeta = some smeta ∧ smeta.Name = some "telemetry-broker" ∧
        smeta.Namespace = some "telemetry") ∧
    ((Run h api img sec s).exit = Exit.returned →
      submissions (Run h api img sec s).events =
        [Event.applyDaemonSet "telemetry" (installDaemonSet img sec) installOptions none,
         Event.applyService "telemetry" installService installOptions none]) := by
  have hds : ∃ dmeta, (installDaemonSet img sec).ObjectMeta = some dmeta ∧
      dmeta.Name = some "telemetry-broker" ∧ dmeta.Namespace = some "telemetry" :=
    ⟨_, rfl, rfl, rfl⟩
  have hsvc : ∃ smeta, installService.ObjectMeta = some smeta ∧
      smeta.Name = some "telemetry-broker" ∧ smeta.Namespace = some "telemetry" :=
    ⟨_, rfl, rfl, rfl⟩
  have hfm : installOptions.FieldManager = "system" := rfl
  rcases Run_cases h api img sec s with ⟨_, _, hr⟩ | ⟨_, _, _, _, hr⟩ | ⟨_, _, _, _, _, _, hr⟩ |
    ⟨_, _, _, _, _, hr⟩ | ⟨_, _, _, _, _, _, _, hr⟩ | ⟨_, _, _, _, _, _, hr⟩ <;>
    rw [hr] <;> refine ⟨?_, ?_, ?_⟩
  · intro _ _ _ _ hm; simp at hm
  · intro _ _ _ _ hm; simp at hm
  · intro hx; simp at hx
  · intro _ _ _ _ hm; simp at hm
  · intro _ _ _ _ hm; simp at hm
  · intro hx; simp at hx
  · intro _ _ _ _ hm; simp at hm
  · intro _ _ _ _ hm; simp at hm
  · intro hx; simp at hx
  · intro ns ds opts err hm
    simp [eventsDaemonSetFailed, eventsBefore] at hm
    obtain ⟨rfl, rfl, rfl, _⟩ := hm
    exact ⟨rfl, hfm, hds⟩
  · intro ns svc opts err hm
    simp [eventsDaemonSetFailed, eventsBefore] at hm
  · intro hx; simp at hx
  · intro ns ds opts err hm
    simp [eventsServiceFailed, eventsDaemonSetDone, eventsBefore] at hm
    obtain ⟨rfl, rfl, rfl, _⟩ := hm
    exact ⟨rfl, hfm, hds⟩
  · intro ns svc opts err hm
    simp [eventsServiceFailed, eventsDaemonSetDone, eventsBefore] at hm
    obtain ⟨rfl, rfl, rfl, _⟩ := hm
    exact ⟨rfl, hfm, hsvc⟩
  · intro hx; simp at hx
  · intro ns ds opts err hm
    simp [eventsSucceeded, eventsDaemonSetDone, eventsBefore] at hm
    obtain ⟨rfl, rfl, rfl, _⟩ := hm
    exact ⟨rfl, hfm, hds⟩
  · intro ns svc opts err hm
    simp [eventsSucceeded, eventsDaemonSetDone, eventsBefore] at hm
    obtain ⟨rfl, rfl, rfl, _⟩ := hm
    exact ⟨rfl, hfm, hsvc⟩
  · intro _
    simp [submissions, eventsSucceeded, eventsDaemonSetDone, eventsBefore]

/-- C6 on a host and a cluster where everything succeeds: the run returns and
its two submissions are the daemon set and the service. -/
theorem submissions_scoped_witness :
    (Run okHost okApi "foo/bar:v1" "my-secret" ()).exit = Exit.returned ∧
    submissions (Run okHost okApi "foo/bar:v1" "my-secret" ()).events =
      [Event.applyDaemonSet "telemetry" (installDaemonSet "foo/bar:v1" "my-secret")
         installOptions none,
       Event.applyService "telemetry" installService installOptions none] :=
  have hret : (Run okHost okApi "foo/bar:v1" "my-secret" ()).exit = Exit.returned := by
    rw [Run_of_success okHost okApi "foo/bar:v1" "my-secret" () okHost_connects rfl rfl]
  ⟨hret, (submissions_scoped okHost okApi "foo/bar:v1" "my-secret" ()).2.2 hret⟩

/-! ## How a run ends -/

/-- C8, as stated, fails: on a host whose kubeconfig cannot be loaded the run
ends by a panic that carries the error text; no line is written through
package `log`, and the ending is not the one of `log.Fatalln`. -/
theorem credential_failure_is_panic_without_log_line :
    noKubeconfigHost.BuildConfigFromFlags "" (kubeconfigDefault noKubeconfigHost) =
      Except.error "invalid configuration: no configuration has been provided" ∧
    (Run noKubeconfigHost okApi "foo/bar:v1" "my-secret" ()).exit =
      Exit.panicked "invalid configuration: no configuration has been provided" ∧
    (Run noKubeconfigHost okApi "foo/bar:v1" "my-secret" ()).events = [] ∧
    ¬ (Run noKubeconfigHost okApi "foo/bar:v1" "my-secret" ()).FatalLogged := by
  have hr : Run noKubeconfigHost okApi "foo/bar:v1" "my-secret" () =
      { events := [],
        exit := Exit.panicked "invalid configuration: no configuration has been provided",
        cluster := () } :=
    @Run_of_buildConfig_error _ _ _ noKubeconfigHost okApi "foo/bar:v1" "my-secret" ()
      "/root/.kube/config" _ rfl rfl
  refine ⟨rfl, ?_, ?_, ?_⟩
  · rw [hr]
  · rw [hr]
  · rintro ⟨code, line, _, hexit, _⟩
    rw [hr] at hexit
    simp at hexit

/-- On a host whose kubeconfig loads and whose clientset cannot be made, the
run ends by a panic as well, whatever the cluster would have answered. -/
theorem clientset_failure_is_panic :
    noClientsetHost.BuildConfigFromFlags "" (kubeconfigDefault noClientsetHost) =
      Except.ok "/root/.kube/config" ∧
    (Run noClientsetHost okApi "foo/bar:v1" "my-secret" ()).exit =
      Exit.panicked "host must be a URL or a host:port pair" ∧
    (Run noClientsetHost okApi "foo/bar:v1" "my-secret" ()).events = [] := by
  have hr : Run noClientsetHost okApi "foo/bar:v1" "my-secret" () =
      { events := [], exit := Exit.panicked "host must be a URL or a host:port pair",
        cluster := () } :=
    @Run_of_newForConfig_error _ _ _ noClientsetHost okApi "foo/bar:v1" "my-secret" ()
      "/root/.kube/config" "/root/.kube/config" _ rfl rfl rfl
  refine ⟨rfl, ?_, ?_⟩ <;> rw [hr]

/-- C8, amended: a run whose kubeconfig cannot be loaded, or whose clientset
cannot be made, ends by a panic carrying the error text, with nothing logged
(a run whose flag parsing exits ends with that status, with nothing logged);
a run whose daemon-set or service submission fails ends by `log.Fatalln`, a
last log line with the error and exit status 1; a run where all of this
succeeds returns after the two success lines, the daemon set's before the
service's.  A run returns if and only if flag parsing returns, the kubeconfig
loads, the clientset is made and both submissions come back without error. -/
theorem Run_ending {κ ρ σ : Type} (h : Host κ ρ) (api : Api ρ σ) (img sec : String) (s : σ) :
    (∀ code, h.flagParse (kubeconfigDefault h) = Except.error code →
      (Run h api img sec s).exit = Exit.exited code ∧ (Run h api img sec s).events = []) ∧
    (∀ kubeconfig err, h.flagParse (kubeconfigDefault h) = Except.ok kubeconfig →
      h.BuildConfigFromFlags "" kubeconfig = Except.error err →
      (Run h api img sec s).exit = Exit.panicked err ∧ (Run h api img sec s).events = []) ∧
    (∀ kubeconfig config err, h.flagParse (kubeconfigDefault h) = Except.ok kubeconfig →
      h.BuildConfigFromFlags "" kubeconfig = Except.ok config →
      h.NewForConfig config = Except.error err →
      (Run h api img sec s).exit = Exit.panicked err ∧ (Run h api img sec s).events = []) ∧
    (∀ cs err s1, h.Connects cs →
      api.applyDaemonSet cs "telemetry" (installDaemonSet img sec) installOptions s
        = (some err, s1) →
      (Run h api img sec s).exit = Exit.exited 1 ∧
      (Run h api img sec s).events.getLast? = some (Event.log
        (sprintln ["Failed to create daemonSet for telemetry broker, error: ", err])) ∧
      (Run h api img sec s).FatalLogged) ∧
    (∀ cs err s1 s2, h.Connects cs →
      api.applyDaemonSet cs "telemetry" (installDaemonSet img sec) installOptions s
        = (none, s1) →
      api.applyService cs "telemetry" installService installOptions s1 = (some err, s2) →
      (Run h api img sec s).exit = Exit.exited 1 ∧
      (Run h api img sec s).events.getLast? = some (Event.log
        (sprintln ["Failed to create service: ", err])) ∧
      (Run h api img sec s).FatalLogged) ∧
    (∀ cs s1 s2, h.Connects cs →
      api.applyDaemonSet cs "telemetry" (installDaemonSet img sec) installOptions s
        = (none, s1) →
      api.applyService cs "telemetry" installService installOptions s1 = (none, s2) →
      (Run h api img sec s).exit = Exit.returned ∧
      ∃ pre mid, (Run h api img sec s).events =
        pre ++ Event.log (sprintln ["Successfully created daemonSet"]) :: mid ++
          [Event.log (sprintln ["Successfully created service ", "telemetry-broker"])]) ∧
    ((Run h api img sec s).exit = Exit.returned ↔
      ∃ cs s1 s2, h.Connects cs ∧
        api.applyDaemonSet cs "telemetry" (installDaemonSet img sec) installOptions s
          = (none, s1) ∧
        api.applyService cs "telemetry" installService installOptions s1 = (none, s2)) := by
  refine ⟨?_, ?_, ?_, ?_, ?_, ?_, ?_⟩
  · intro code hf
    rw [Run_of_flagParse_error h api img sec s hf]
    exact ⟨rfl, rfl⟩
  · intro kubeconfig err hf hb
    rw [Run_of_buildConfig_error h api img sec s hf hb]
    exact ⟨rfl, rfl⟩
  · intro kubeconfig config err hf hb hn
    rw [Run_of_newForConfig_error h api img sec s hf hb hn]
    exact ⟨rfl, rfl⟩
  · intro cs err s1 hc hd
    rw [Run_of_daemonSet_error h api img sec s hc hd]
    have hlast : (eventsDaemonSetFailed img sec err).getLast? = some (Event.log
        (sprintln ["Failed to create daemonSet for telemetry broker, error: ", err])) := by
      simp [eventsDaemonSetFailed, eventsBefore]
    exact ⟨rfl, hlast, 1, _, by decide, rfl, hlast⟩
  · intro cs err s1 s2 hc hd hs
    rw [Run_of_service_error h api img sec s hc hd hs]
    have hlast : (eventsServiceFailed img sec err).getLast? = some (Event.log
        (sprintln ["Failed to create service: ", err])) := by
      simp [eventsServiceFailed, eventsDaemonSetDone, eventsBefore]
    exact ⟨rfl, hlast, 1, _, by decide, rfl, hlast⟩
  · intro cs s1 s2 hc hd hs
    rw [Run_of_success h api img sec s hc hd hs]
    refine ⟨rfl, eventsBefore img sec ++
      [Event.applyDaemonSet "telemetry" (installDaemonSet img sec) installOptions none],
      [Event.log (sprintln ["Creating service"]),
       Event.applyService "telemetry" installService installOptions none], ?_⟩
    simp [eventsSucceeded, eventsDaemonSetDone]
  · constructor
    · intro hret
      rcases Run_cases h api img sec s with ⟨_, _, hr⟩ | ⟨_, _, _, _, hr⟩ |
        ⟨_, _, _, _, _, _, hr⟩ | ⟨_, _, _, _, _, hr⟩ | ⟨_, _, _, _, _, _, _, hr⟩ |
        ⟨cs, s1, s2, hc, hd, hs, _⟩
      · rw [hr] at hret; simp at hret
      · rw [hr] at hret; simp at hret
      · rw [hr] at hret; simp at hret
      · rw [hr] at hret; simp at hret
      · rw [hr] at hret; simp at hret
      · exact ⟨cs, s1, s2, hc, hd, hs⟩
    · rintro ⟨cs, s1, s2, hc, hd, hs⟩
      rw [Run_of_success h api img sec s hc hd hs]

/-- C8, amended, where the service submission is refused: the run ends by
`log.Fatalln` with the line for the service. -/
theorem Run_ending_witness :
    okHost.Connects () ∧
    (Run okHost noServiceApi "foo/bar:v1" "my-secret" ()).exit = Exit.exited 1 ∧
    (Run okHost noServiceApi "foo/bar:v1" "my-secret" ()).events.getLast? = some (Event.log
      (sprintln ["Failed to create service: ", "services is forbidden"])) ∧
    (Run okHost noServiceApi "foo/bar:v1" "my-secret" ()).FatalLogged :=
  ⟨okHost_connects,
   (Run_ending okHost noServiceApi "foo/bar:v1" "my-secret" ()).2.2.2.2.1 () "services is forbidden"
     () () okHost_connects rfl rfl⟩

/-! ## Running install again -/

theorem Resource.hasIdentity_self (r : Resource) :
    r.hasIdentity r.kind r.namespace_ r.name = true := by
  simp [Resource.hasIdentity]

theorem Cluster.lookup_store_self (r : Resource) (c : Cluster) :
    Cluster.lookup r.kind r.namespace_ r.name (Cluster.store r c) = some r := by
  induction c with
  | nil => simp [Cluster.store, Cluster.lookup, Resource.hasIdentity_self]
  | cons x rest ih =>
    by_cases hx : x.hasIdentity r.kind r.namespace_ r.name = true
    · simp [Cluster.store, Cluster.lookup, hx, Resource.hasIdentity_self]
    · simp [Cluster.store, Cluster.lookup, hx, ih]

theorem Cluster.lookup_store_of_ne (r : Resource) (kind ns name : String) (c : Cluster)
    (hne : ¬ (r.kind = kind ∧ r.namespace_ = ns ∧ r.name = name)) :
    Cluster.lookup kind ns name (Cluster.store r c) = Cluster.lookup kind ns name c := by
  have hr : r.hasIdentity kind ns name = false := by
    simpa [Resource.hasIdentity] using hne
  induction c with
  | nil => simp [Cluster.store, Cluster.lookup, hr]
  | cons x rest ih =>
    by_cases hx : x.hasIdentity r.kind r.namespace_ r.name = true
    · have hxk : x.hasIdentity kind ns name = false := by
        simp only [Resource.hasIdentity, decide_eq_true_eq] at hx
        obtain ⟨h1, h2, h3⟩ := hx
        simp only [Resource.hasIdentity, h1, h2, h3]
        simpa using hne
      simp [Cluster.store, Cluster.lookup, hx, hr, hxk]
    · by_cases hxk : x.hasIdentity kind ns name = true
      · simp [Cluster.store, Cluster.lookup, hx, hxk]
      · simp [Cluster.store, Cluster.lookup, hx, hxk, ih]

theorem Cluster.store_of_lookup (r : Resource) (c : Cluster)
    (hl : Cluster.lookup r.kind r.namespace_ r.name c = some r) : Cluster.store r c = c := by
  induction c with
  | nil => simp [Cluster.lookup] at hl
  | cons x rest ih =>
    by_cases hx : x.hasIdentity r.kind r.namespace_ r.name = true
    · simp [Cluster.lookup, hx] at hl
      subst hl
      simp [Cluster.store, hx]
    · simp [Cluster.lookup, hx] at hl
      simp [Cluster.store, hx, ih hl]

/-- A refused submission leaves the cluster as it was. -/
theorem Cluster.apply_error (kind ns : String) (name : Option String) (m : Manifest)
    (opts : ApplyOptions) (c c1 : Cluster) (err : String)
    (ha : Cluster.apply kind ns name m opts c = (some err, c1)) : c1 = c := by
  unfold Cluster.apply at ha
  cases name with
  | none => simp at ha; exact ha.2.symm
  | some n =>
    simp only at ha
    cases hl : Cluster.lookup kind ns n c with
    | none => simp [hl] at ha
    | some old =>
      by_cases hm : old.manager = opts.FieldManager
      · simp [hl, hm] at ha
      · simp [hl, hm] at ha
        exact ha.2.symm

/-- An accepted submission had a name and stored the resource. -/
theorem Cluster.apply_ok (kind ns : String) (name : Option String) (m : Manifest)
    (opts : ApplyOptions) (c c1 : Cluster)
    (ha : Cluster.apply kind ns name m opts c = (none, c1)) :
    ∃ n, name = some n ∧
      c1 = Cluster.store
        { kind := kind, namespace_ := ns, name := n, manager := opts.FieldManager,
          manifest := m } c := by
  unfold Cluster.apply at ha
  cases name with
  | none => simp at ha
  | some n =>
    refine ⟨n, rfl, ?_⟩
    simp only at ha
    cases hl : Cluster.lookup kind ns n c with
    | none =>
      simp [hl] at ha
      exact ha.symm
    | some old =>
      by_cases hm : old.manager = opts.FieldManager
      · simp [hl, hm] at ha
        exact ha.symm
      · simp [hl, hm] at ha

/-- Applying what the cluster already holds under the same manager is
accepted and changes nothing. -/
theorem Cluster.apply_of_lookup (kind ns n : String) (m : Manifest) (opts : ApplyOptions)
    (c : Cluster)
    (hl : Cluster.lookup kind ns n c = some
      { kind := kind, namespace_ := ns, name := n, manager := opts.FieldManager,
        manifest := m }) :
    Cluster.apply kind ns (some n) m opts c = (none, c) := by
  have hs := Cluster.store_of_lookup
    { kind := kind, namespace_ := ns, name := n, manager := opts.FieldManager, manifest := m }
    c hl
  simp only [Cluster.apply, hl, if_true]
  rw [hs]

section Rerun

variable {κ ρ : Type} (h : Host κ ρ) (img sec : String)

theorem applyDaemonSet_stores (cs : ρ) (c c1 : Cluster)
    (hd : (clusterApi ρ).applyDaemonSet cs "telemetry" (installDaemonSet img sec) installOptions c
      = (none, c1)) :
    c1 = Cluster.store (installedDaemonSet img sec) c := by
  obtain ⟨n, hn, hc1⟩ := Cluster.apply_ok "DaemonSet" "telemetry"
    (metaName (installDaemonSet img sec).ObjectMeta)
    (Manifest.daemonSet (installDaemonSet img sec)) installOptions c c1 hd
  have hname : metaName (installDaemonSet img sec).ObjectMeta = some "telemetry-broker" := rfl
  rw [hname] at hn
  cases hn
  exact hc1

theorem applyService_stores (cs : ρ) (c c1 : Cluster)
    (hs : (clusterApi ρ).applyService cs "telemetry" installService installOptions c
      = (none, c1)) :
    c1 = Cluster.store installedService c := by
  obtain ⟨n, hn, hc1⟩ := Cluster.apply_ok "Service" "telemetry"
    (metaName installService.ObjectMeta) (Manifest.service installService) installOptions c c1 hs
  have hname : metaName installService.ObjectMeta = some "telemetry-broker" := rfl
  rw [hname] at hn
  cases hn
  exact hc1

theorem applyDaemonSet_again (cs : ρ) (c : Cluster)
    (hl : Cluster.lookup "DaemonSet" "telemetry" "telemetry-broker" c
      = some (installedDaemonSet img sec)) :
    (clusterApi ρ).applyDaemonSet cs "telemetry" (installDaemonSet img sec) installOptions c
      = (none, c) :=
  Cluster.apply_of_lookup "DaemonSet" "telemetry" "telemetry-broker"
    (Manifest.daemonSet (installDaemonSet img sec)) installOptions c hl

theorem applyService_again (cs : ρ) (c : Cluster)
    (hl : Cluster.lookup "Service" "telemetry" "telemetry-broker" c = some installedService) :
    (clusterApi ρ).applyService cs "telemetry" installService installOptions c = (none, c) :=
  Cluster.apply_of_lookup "Service" "telemetry" "telemetry-broker"
    (Manifest.service installService) installOptions c hl

theorem lookup_daemonSet_after_daemonSet (c : Cluster) :
    Cluster.lookup "DaemonSet" "telemetry" "telemetry-broker"
      (Cluster.store (installedDaemonSet img sec) c) = some (installedDaemonSet img sec) :=
  Cluster.lookup_store_self (installedDaemonSet img sec) c

theorem lookup_service_after_service (c : Cluster) :
    Cluster.lookup "Service" "telemetry" "telemetry-broker" (Cluster.store installedService c)
      = some installedService :=
  Cluster.lookup_store_self installedService c

theorem lookup_daemonSet_after_service (c : Cluster) :
    Cluster.lookup "DaemonSet" "telemetry" "telemetry-broker" (Cluster.store installedService c)
      = Cluster.lookup "DaemonSet" "telemetry" "telemetry-broker" c :=
  Cluster.lookup_store_of_ne installedService _ _ _ c (by decide)

/-- A run from the state a run left repeats that run: same events, same
ending, same state. -/
theorem Run_again (c : Cluster) :
    Run h (clusterApi ρ) img sec (Run h (clusterApi ρ) img sec c).cluster =
      Run h (clusterApi ρ) img sec c := by
  rcases Run_cases h (clusterApi ρ) img sec c with ⟨_, _, hr⟩ | ⟨_, _, _, _, hr⟩ |
    ⟨_, _, _, _, _, _, hr⟩ | ⟨cs, err, s1, hc, hd, hr⟩ | ⟨cs, err, s1, s2, hc, hd, hs, hr⟩ |
    ⟨cs, s1, s2, hc, hd, hs, hr⟩
  · rw [hr]; exact hr
  · rw [hr]; exact hr
  · rw [hr]; exact hr
  · have h1 : s1 = c := Cluster.apply_error "DaemonSet" "telemetry"
      (metaName (installDaemonSet img sec).ObjectMeta)
      (Manifest.daemonSet (installDaemonSet img sec)) installOptions c s1 err hd
    subst h1
    rw [hr]; exact hr
  · have h2 : s2 = s1 := Cluster.apply_error "Service" "telemetry"
      (metaName installService.ObjectMeta) (Manifest.service installService) installOptions
      s1 s2 err hs
    subst h2
    have h1 := applyDaemonSet_stores img sec cs c s2 hd
    have hd2 := applyDaemonSet_again img sec cs s2
      (by rw [h1]; exact lookup_daemonSet_after_daemonSet img sec c)
    rw [hr]
    exact Run_of_service_error h (clusterApi ρ) img sec s2 hc hd2 hs
  · have h1 := applyDaemonSet_stores img sec cs c s1 hd
    have h2 := applyService_stores cs s1 s2 hs
    have hd2 := applyDaemonSet_again img sec cs s2
      (by rw [h2, lookup_daemonSet_after_service, h1]
          exact lookup_daemonSet_after_daemonSet img sec c)
    have hs2 := applyService_again cs s2 (by rw [h2]; exact lookup_service_after_service s1)
    rw [hr]
    exact Run_of_success h (clusterApi ρ) img sec s2 hc hd2 hs2

end Rerun

/-- The submissions of any run carry the two descriptors of the image name
and the secret name, whatever the host, the cluster and its state. -/
theorem submissions_of_Run {κ ρ σ : Type} (h : Host κ ρ) (api : Api ρ σ) (img sec : String)
    (s : σ) (e : Event) (he : e ∈ submissions (Run h api img sec s).events) :
    (∃ err, e = Event.applyDaemonSet "telemetry" (installDaemonSet img sec) installOptions err) ∨
    (∃ err, e = Event.applyService "telemetry" installService installOptions err) := by
  rcases Run_cases h api img sec s with ⟨_, _, hr⟩ | ⟨_, _, _, _, hr⟩ | ⟨_, _, _, _, _, _, hr⟩ |
    ⟨_, _, _, _, _, hr⟩ | ⟨_, _, _, _, _, _, _, hr⟩ | ⟨_, _, _, _, _, _, hr⟩ <;>
    rw [hr] at he
  · simp [submissions] at he
  · simp [submissions] at he
  · simp [submissions] at he
  · simp [submissions, eventsDaemonSetFailed, eventsBefore] at he
    exact Or.inl ⟨_, he⟩
  · simp [submissions, eventsServiceFailed, eventsDaemonSetDone, eventsBefore] at he
    rcases he with he | he
    · exact Or.inl ⟨_, he⟩
    · exact Or.inr ⟨_, he⟩
  · simp [submissions, eventsSucceeded, eventsDaemonSetDone, eventsBefore] at he
    rcases he with he | he
    · exact Or.inl ⟨_, he⟩
    · exact Or.inr ⟨_, he⟩

/-- A run against the cluster of `Cluster.apply` that returns leaves the two
resources of install and made its two submissions without error. -/
theorem Run_returned_cluster {κ ρ : Type} (h : Host κ ρ) (img sec : String) (c : Cluster)
    (hret : (Run h (clusterApi ρ) img sec c).exit = Exit.returned) :
    (Run h (clusterApi ρ) img sec c).events = eventsSucceeded img sec ∧
    Cluster.lookup "DaemonSet" "telemetry" "telemetry-broker"
      (Run h (clusterApi ρ) img sec c).cluster = some (installedDaemonSet img sec) ∧
    Cluster.lookup "Service" "telemetry" "telemetry-broker"
      (Run h (clusterApi ρ) img sec c).cluster = some installedService := by
  rcases Run_cases h (clusterApi ρ) img sec c with ⟨_, _, hr⟩ | ⟨_, _, _, _, hr⟩ |
    ⟨_, _, _, _, _, _, hr⟩ | ⟨_, _, _, _, _, hr⟩ | ⟨_, _, _, _, _, _, _, hr⟩ |
    ⟨cs, s1, s2, hc, hd, hs, hr⟩
  · rw [hr] at hret; simp at hret
  · rw [hr] at hret; simp at hret
  · rw [hr] at hret; simp at hret
  · rw [hr] at hret; simp at hret
  · rw [hr] at hret; simp at hret
  · have h1 := applyDaemonSet_stores img sec cs c s1 hd
    have h2 := applyService_stores cs s1 s2 hs
    rw [hr]
    refine ⟨rfl, ?_, ?_⟩
    · show Cluster.lookup "DaemonSet" "telemetry" "telemetry-broker" s2 = _
      rw [h2, lookup_daemonSet_after_service, h1]
      exact lookup_daemonSet_after_daemonSet img sec c
    · show Cluster.lookup "Service" "telemetry" "telemetry-broker" s2 = _
      rw [h2]
      exact lookup_service_after_service s1

/-- C9: the submissions of a run are the two descriptors of the image name and
the secret name alone, with namespace telemetry and field manager system,
whatever the host and the cluster.  Against a cluster with create-or-update
apply keyed by (kind, namespace, name), a second run with the same inputs from
the state the first run left has the same events, the same ending and leaves
the same state; and when the first run returned, the second returns too, its
two submissions come back without error, and the daemon set and the service
are in the cluster under the same name and namespace after either run. -/
theorem rerun_same_outcome {κ ρ : Type} (h : Host κ ρ) (img sec : String) (c : Cluster) :
    (∀ {κ1 ρ1 σ1 : Type} (h1 : Host κ1 ρ1) (api1 : Api ρ1 σ1) (s1 : σ1) (e : Event),
      e ∈ submissions (Run h1 api1 img sec s1).events →
      (∃ err, e = Event.applyDaemonSet "telemetry" (installDaemonSet img sec) installOptions err) ∨
      (∃ err, e = Event.applyService "telemetry" installService installOptions err)) ∧
    (Run h (clusterApi ρ) img sec (Run h (clusterApi ρ) img sec c).cluster).events =
      (Run h (clusterApi ρ) img sec c).events ∧
    (Run h (clusterApi ρ) img sec (Run h (clusterApi ρ) img sec c).cluster).exit =
      (Run h (clusterApi ρ) img sec c).exit ∧
    (Run h (clusterApi ρ) img sec (Run h (clusterApi ρ) img sec c).cluster).cluster =
      (Run h (clusterApi ρ) img sec c).cluster ∧
    ((Run h (clusterApi ρ) img sec c).exit = Exit.returned →
      (Run h (clusterApi ρ) img sec (Run h (clusterApi ρ) img sec c).cluster).exit =
        Exit.returned ∧
      submissions (Run h (clusterApi ρ) img sec (Run h (clusterApi ρ) img sec c).cluster).events =
        [Event.applyDaemonSet "telemetry" (installDaemonSet img sec) installOptions none,
         Event.applyService "telemetry" installService installOptions none] ∧
      Cluster.lookup "DaemonSet" "telemetry" "telemetry-broker"
        (Run h (clusterApi ρ) img sec c).cluster = some (installedDaemonSet img sec) ∧
      Cluster.lookup "Service" "telemetry" "telemetry-broker"
        (Run h (clusterApi ρ) img sec c).cluster = some installedService ∧
      Cluster.lookup "DaemonSet" "telemetry" "telemetry-broker"
        (Run h (clusterApi ρ) img sec (Run h (clusterApi ρ) img sec c).cluster).cluster =
          some (installedDaemonSet img sec) ∧
      Cluster.lookup "Service" "telemetry" "telemetry-broker"
        (Run h (clusterApi ρ) img sec (Run h (clusterApi ρ) img sec c).cluster).cluster =
          some installedService) := by
  have hagain := Run_again h img sec c
  refine ⟨?_, by rw [hagain], by rw [hagain], by rw [hagain], ?_⟩
  · intro κ1 ρ1 σ1 h1 api1 s1 e he
    exact submissions_of_Run h1 api1 img sec s1 e he
  · intro hret
    obtain ⟨hev, hds, hsvc⟩ := Run_returned_cluster h img sec c hret
    rw [hagain]
    refine ⟨hret, ?_, hds, hsvc, hds, hsvc⟩
    rw [hev]
    simp [submissions, eventsSucceeded, eventsDaemonSetDone, eventsBefore]

/-- C9 on an empty cluster: the first run returns, and so does the second,
with the same two resources in the cluster. -/
theorem rerun_same_outcome_witness :
    (Run okHost (clusterApi Unit) "foo/bar:v1" "my-secret" []).exit = Exit.returned ∧
    (Run okHost (clusterApi Unit) "foo/bar:v1" "my-secret"
      (Run okHost (clusterApi Unit) "foo/bar:v1" "my-secret" []).cluster).exit = Exit.returned ∧
    (Run okHost (clusterApi Unit) "foo/bar:v1" "my-secret"
      (Run okHost (clusterApi Unit) "foo/bar:v1" "my-secret" []).cluster).cluster =
      [installedDaemonSet "foo/bar:v1" "my-secret", installedService] :=
  have hfirst : Run okHost (clusterApi Unit) "foo/bar:v1" "my-secret" [] =
      { events := eventsSucceeded "foo/bar:v1" "my-secret", exit := Exit.returned,
        cluster := [installedDaemonSet "foo/bar:v1" "my-secret", installedService] } :=
    Run_of_success okHost (clusterApi Unit) "foo/bar:v1" "my-secret" [] okHost_connects rfl
      (by decide)
  have hret : (Run okHost (clusterApi Unit) "foo/bar:v1" "my-secret" []).exit = Exit.returned := by
    rw [hfirst]
  have hthm := rerun_same_outcome okHost "foo/bar:v1" "my-secret" []
  ⟨hret, (hthm.2.2.2.2 hret).1, by rw [hthm.2.2.2.1, hfirst]⟩

end Bifrost
